import Mathlib

/-!
Verification development for the finance reporting gateway client
(`src/Client.py`).  The Python program is shallowly embedded: Python
values that flow through `json.dumps` / `json.loads` are modelled by the
inductive type `PyVal`, the canonical serializer `Serializer.to_json`
(`json.dumps(self, default=lambda o: o.__dict__, sort_keys=True, indent=4)`)
by `render`, the HMAC signer by an executable SHA-256/HMAC development,
the response materializer (`json.loads` with the `namedtuple` object
hook) by an executable JSON parser plus `hookTree`, and the
request-construction pipeline by pure functions.  Nondeterministic
inputs of the Python code (`uuid.uuid4()`, `datetime.now()`, the HTTP
transport) are passed as explicit arguments.
-/

/-- The three non-standard constants that Python's `json.loads`
accepts by default (the source never overrides `parse_constant`): they
decode to the floats `nan`, `inf` and `-inf`, which `json.dumps` in
turn writes back as `NaN`, `Infinity` and `-Infinity`. -/
inductive PyFloatConst where
  | nan : PyFloatConst
  | inf : PyFloatConst
  | neginf : PyFloatConst
deriving Repr, DecidableEq

/-- A Python value as seen by the `json` module: `None`, `bool`, `int`,
`str`, `list`, an object serialized through its `__dict__` (or a plain
`dict`), and a `namedtuple` instance (which `json.dumps` encodes as a
JSON array, since `namedtuple` is a `tuple` subclass).  Object and tuple
fields are kept in Python attribute/key insertion order.  Finite float
literals are outside the model (the gateway payloads carry none); the
three special float constants that `json.loads` accepts are modelled
by `fconst`. -/
inductive PyVal where
  | null : PyVal
  | bool (b : Bool) : PyVal
  | int (n : Int) : PyVal
  | str (s : String) : PyVal
  | list (xs : List PyVal) : PyVal
  | obj (fields : List (String × PyVal)) : PyVal
  | tuple (fields : List (String × PyVal)) : PyVal
  | fconst (c : PyFloatConst) : PyVal
deriving Repr

/-- Lowercase hexadecimal digit for `n < 16` (total, clamping at `f`). -/
def hexChar : Nat → Char
  | 0 => '0' | 1 => '1' | 2 => '2' | 3 => '3' | 4 => '4'
  | 5 => '5' | 6 => '6' | 7 => '7' | 8 => '8' | 9 => '9'
  | 10 => 'a' | 11 => 'b' | 12 => 'c' | 13 => 'd' | 14 => 'e'
  | _ => 'f'

/-- The `\uXXXX` escape used by `json.dumps` for non-ASCII code units. -/
def uEscape (n : Nat) : List Char :=
  ['\\', 'u', hexChar (n / 4096 % 16), hexChar (n / 256 % 16),
   hexChar (n / 16 % 16), hexChar (n % 16)]

/-- Escape one character the way `json.dumps` (with the default
`ensure_ascii=True`) does: short escapes for the usual control
characters, backslash and quote; printable ASCII kept verbatim; all
other code points emitted as `\uXXXX` (surrogate pairs above the BMP). -/
def escChar (c : Char) : List Char :=
  if c = '"' then ['\\', '"']
  else if c = '\\' then ['\\', '\\']
  else if c.toNat = 8 then ['\\', 'b']
  else if c.toNat = 9 then ['\\', 't']
  else if c.toNat = 10 then ['\\', 'n']
  else if c.toNat = 12 then ['\\', 'f']
  else if c.toNat = 13 then ['\\', 'r']
  else if 32 ≤ c.toNat ∧ c.toNat ≤ 126 then [c]
  else if c.toNat < 65536 then uEscape c.toNat
  else
    uEscape (55296 + (c.toNat - 65536) / 1024) ++
    uEscape (56320 + (c.toNat - 65536) % 1024)

/-- JSON string-body escaping of `json.dumps`. -/
def escapeJson (s : String) : String :=
  String.mk (s.data.flatMap escChar)

/-- Indentation prefix produced by `json.dumps(..., indent=4)`. -/
def pad (lvl : Nat) : String :=
  String.mk (List.replicate (4 * lvl) ' ')

/-- The text `json.dumps` emits for the three special float values
(the `float.__repr__`-based special case of the encoder). -/
def floatConstRepr : PyFloatConst → String
  | .nan => "NaN"
  | .inf => "Infinity"
  | .neginf => "-Infinity"

/-- Order used by `sort_keys=True`: compare entries by their key, with
the lexicographic-by-code-point string order (Python compares `str`
keys the same way; `__dict__` keys are pairwise distinct, so the value
component never takes part in the comparison). -/
def itemLe (p q : String × String) : Bool :=
  decide (p.1 ≤ q.1)

mutual

/-- Model of `json.dumps(v, default=lambda o: o.__dict__, sort_keys=True,
indent=4)` at indentation level `lvl`: objects render their fields
sorted by key, lists render in order, and tuples (`namedtuple`
instances) render as JSON arrays of their field values in field order,
exactly as the Python encoder treats `tuple` subclasses. -/
def render : PyVal → Nat → String
  | .null, _ => "null"
  | .bool b, _ => cond b "true" "false"
  | .int n, _ => toString n
  | .str s, _ => "\"" ++ escapeJson s ++ "\""
  | .fconst c, _ => floatConstRepr c
  | .list xs, lvl =>
      match renderList xs (lvl + 1) with
      | [] => "[]"
      | items =>
          "[\n" ++ String.intercalate ",\n" (items.map (fun r => pad (lvl + 1) ++ r)) ++
          "\n" ++ pad lvl ++ "]"
  | .obj fs, lvl =>
      match (renderFields fs (lvl + 1)).mergeSort itemLe with
      | [] => "\x7b\x7d"
      | items =>
          "\x7b\n" ++
          String.intercalate ",\n"
            (items.map (fun p => pad (lvl + 1) ++ "\"" ++ escapeJson p.1 ++ "\": " ++ p.2)) ++
          "\n" ++ pad lvl ++ "\x7d"
  | .tuple fs, lvl =>
      match renderFields fs (lvl + 1) with
      | [] => "[]"
      | items =>
          "[\n" ++ String.intercalate ",\n" (items.map (fun p => pad (lvl + 1) ++ p.2)) ++
          "\n" ++ pad lvl ++ "]"

/-- Pointwise rendering of the elements of a Python list. -/
def renderList : List PyVal → Nat → List String
  | [], _ => []
  | x :: xs, lvl => render x lvl :: renderList xs lvl

/-- Pointwise rendering of object/tuple fields, keeping the key and the
original field order (sorting, where it applies, happens afterwards). -/
def renderFields : List (String × PyVal) → Nat → List (String × String)
  | [], _ => []
  | f :: fs, lvl => (f.1, render f.2 lvl) :: renderFields fs lvl

end

/-- Canonical serialization of a Python value, i.e. `Serializer.to_json`
applied to an object whose `PyVal` image is `v`. -/
def to_json (v : PyVal) : String := render v 0

/-- Find the entry with key `k` in a field list and remove it, keeping
the order of the remaining entries. -/
def findRemove (k : String) : List (String × PyVal) → Option (PyVal × List (String × PyVal))
  | [] => none
  | g :: gs =>
      if g.1 = k then some (g.2, gs)
      else
        match findRemove k gs with
        | some (w, gs') => some (w, g :: gs')
        | none => none

mutual

/-- Two Python values have identical field sets and field values,
independently of the order in which object fields were constructed:
scalars must be equal, list and tuple contents must match pointwise, and
object field lists must contain the same keys bound to equivalent
values, in any order. -/
def fieldEquiv : PyVal → PyVal → Bool
  | .null, .null => true
  | .bool a, .bool b => a == b
  | .int a, .int b => a == b
  | .str a, .str b => a == b
  | .fconst a, .fconst b => a == b
  | .list xs, .list ys => fieldEquivList xs ys
  | .obj fs, .obj gs => fieldEquivFields fs gs
  | .tuple fs, .tuple gs => fieldEquivTuple fs gs
  | _, _ => false
termination_by structural a _ => a

/-- Pointwise equivalence of list elements (order is significant). -/
def fieldEquivList : List PyVal → List PyVal → Bool
  | [], [] => true
  | x :: xs, y :: ys => fieldEquiv x y && fieldEquivList xs ys
  | _, _ => false
termination_by structural a _ => a

/-- Pointwise equivalence of tuple fields (order is significant). -/
def fieldEquivTuple : List (String × PyVal) → List (String × PyVal) → Bool
  | [], [] => true
  | (k, v) :: fs, (k', w) :: gs => (k == k') && fieldEquiv v w && fieldEquivTuple fs gs
  | _, _ => false
termination_by structural a _ => a

/-- Order-insensitive matching of object field lists: every field of the
left list is matched against an equivalent field of the right list, each
right field being consumed once. -/
def fieldEquivFields : List (String × PyVal) → List (String × PyVal) → Bool
  | [], gs => gs.isEmpty
  | (k, v) :: fs, gs =>
      match findRemove k gs with
      | some (w, gs') => fieldEquiv v w && fieldEquivFields fs gs'
      | none => false
termination_by structural a _ => a

end

/-- All strings in the list are pairwise distinct. -/
def distinctKeysB : List String → Bool
  | [] => true
  | k :: ks => !(ks.contains k) && distinctKeysB ks

mutual

/-- Every object node of the value has pairwise-distinct field keys;
this always holds for values arising from `__dict__` or from parsed
JSON, since Python dictionaries cannot carry duplicate keys. -/
def nodupKeys : PyVal → Bool
  | .obj fs => distinctKeysB (fs.map Prod.fst) && nodupKeysFields fs
  | .tuple fs => nodupKeysFields fs
  | .list xs => nodupKeysList xs
  | _ => true

/-- `nodupKeys` for every element of a list. -/
def nodupKeysList : List PyVal → Bool
  | [] => true
  | x :: xs => nodupKeys x && nodupKeysList xs

/-- `nodupKeys` for every field value of a field list. -/
def nodupKeysFields : List (String × PyVal) → Bool
  | [] => true
  | f :: fs => nodupKeys f.2 && nodupKeysFields fs

end

/-- Addition of two 32-bit words modulo `2^32`. -/
def add32 (a b : Nat) : Nat := (a + b) % 4294967296

/-- Right rotation of a 32-bit word by `n` bits. -/
def rotr32 (n x : Nat) : Nat := x / 2 ^ n + x % 2 ^ n * 2 ^ (32 - n)

/-- The SHA-256 `Ch` function `(x AND y) XOR ((NOT x) AND z)`. -/
def chF (x y z : Nat) : Nat :=
  Nat.xor (Nat.land x y) (Nat.land (Nat.xor x 4294967295) z)

/-- The SHA-256 `Maj` function. -/
def majF (x y z : Nat) : Nat :=
  Nat.xor (Nat.xor (Nat.land x y) (Nat.land x z)) (Nat.land y z)

/-- The SHA-256 big sigma-0 word function. -/
def bigSigma0 (x : Nat) : Nat :=
  Nat.xor (Nat.xor (rotr32 2 x) (rotr32 13 x)) (rotr32 22 x)

/-- The SHA-256 big sigma-1 word function. -/
def bigSigma1 (x : Nat) : Nat :=
  Nat.xor (Nat.xor (rotr32 6 x) (rotr32 11 x)) (rotr32 25 x)

/-- The SHA-256 small sigma-0 word function. -/
def smallSigma0 (x : Nat) : Nat :=
  Nat.xor (Nat.xor (rotr32 7 x) (rotr32 18 x)) (x / 2 ^ 3)

/-- The SHA-256 small sigma-1 word function. -/
def smallSigma1 (x : Nat) : Nat :=
  Nat.xor (Nat.xor (rotr32 17 x) (rotr32 19 x)) (x / 2 ^ 10)

/-- The 64 SHA-256 round constants (FIPS 180-4). -/
def sha256K : List Nat :=
  [1116352408, 1899447441, 3049323471, 3921009573, 961987163,
   1508970993, 2453635748, 2870763221, 3624381080, 310598401,
   607225278, 1426881987, 1925078388, 2162078206, 2614888103,
   3248222580, 3835390401, 4022224774, 264347078, 604807628,
   770255983, 1249150122, 1555081692, 1996064986, 2554220882,
   2821834349, 2952996808, 3210313671, 3336571891, 3584528711,
   113926993, 338241895, 666307205, 773529912, 1294757372,
   1396182291, 1695183700, 1986661051, 2177026350, 2456956037,
   2730485921, 2820302411, 3259730800, 3345764771, 3516065817,
   3600352804, 4094571909, 275423344, 430227734, 506948616,
   659060556, 883997877, 958139571, 1322822218, 1537002063,
   1747873779, 1955562222, 2024104815, 2227730452, 2361852424,
   2428436474, 2756734187, 3204031479, 3329325298]

/-- The eight 32-bit working registers of SHA-256. -/
structure Hash8 where
  a : Nat
  b : Nat
  c : Nat
  d : Nat
  e : Nat
  f : Nat
  g : Nat
  h : Nat

/-- The SHA-256 initial hash value (FIPS 180-4). -/
def sha256Init : Hash8 :=
  ⟨1779033703, 3144134277, 1013904242, 2773480762,
   1359893119, 2600822924, 528734635, 1541459225⟩

/-- Extend a message-schedule word list by `n` further words. -/
def extendSchedule : List Nat → Nat → List Nat
  | w, 0 => w
  | w, n + 1 =>
      let i := w.length
      let x := add32 (add32 (smallSigma1 (w.getD (i - 2) 0)) (w.getD (i - 7) 0))
                     (add32 (smallSigma0 (w.getD (i - 15) 0)) (w.getD (i - 16) 0))
      extendSchedule (w ++ [x]) n

/-- One SHA-256 compression round, fed one `(K, W)` constant/word pair. -/
def sha256Round (st : Hash8) (kw : Nat × Nat) : Hash8 :=
  let t1 := add32 st.h (add32 (bigSigma1 st.e) (add32 (chF st.e st.f st.g) (add32 kw.1 kw.2)))
  let t2 := add32 (bigSigma0 st.a) (majF st.a st.b st.c)
  ⟨add32 t1 t2, st.a, st.b, st.c, add32 st.d t1, st.e, st.f, st.g⟩

/-- Big-endian conversion of four bytes into one 32-bit word. -/
def bytesToWord (a b c d : Nat) : Nat := ((a * 256 + b) * 256 + c) * 256 + d

/-- Group a 64-byte block into sixteen big-endian 32-bit words. -/
def blockWords : List Nat → List Nat
  | a :: b :: c :: d :: rest => bytesToWord a b c d :: blockWords rest
  | _ => []

/-- Compress one 64-byte block into the running hash state. -/
def compressBlock (H : Hash8) (block : List Nat) : Hash8 :=
  let w := extendSchedule (blockWords block) 48
  let st := (sha256K.zip w).foldl sha256Round H
  ⟨add32 H.a st.a, add32 H.b st.b, add32 H.c st.c, add32 H.d st.d,
   add32 H.e st.e, add32 H.f st.f, add32 H.g st.g, add32 H.h st.h⟩

/-- Split a byte list into 64-byte blocks (`fuel` bounds the number of
blocks; one surplus unit is enough since every step consumes at least
one byte). -/
def chunkAux : Nat → List Nat → List (List Nat)
  | 0, _ => []
  | _, [] => []
  | fuel + 1, x :: xs => ((x :: xs).take 64) :: chunkAux fuel ((x :: xs).drop 64)

/-- Split a byte list into 64-byte blocks. -/
def chunkBlocks (l : List Nat) : List (List Nat) :=
  chunkAux l.length l

/-- The 8-byte big-endian encoding of the message bit length. -/
def lengthBytes (n : Nat) : List Nat :=
  [n / 2 ^ 56 % 256, n / 2 ^ 48 % 256, n / 2 ^ 40 % 256, n / 2 ^ 32 % 256,
   n / 2 ^ 24 % 256, n / 2 ^ 16 % 256, n / 2 ^ 8 % 256, n % 256]

/-- SHA-256 padding: a `0x80` byte, zeros up to 56 modulo 64, then the
64-bit big-endian bit length. -/
def padMessage (msg : List Nat) : List Nat :=
  let z := (64 + 56 - (msg.length + 1) % 64) % 64
  msg ++ 128 :: (List.replicate z 0 ++ lengthBytes (8 * msg.length))

/-- Big-endian byte serialization of one 32-bit word. -/
def wordBytes (w : Nat) : List Nat :=
  [w / 2 ^ 24 % 256, w / 2 ^ 16 % 256, w / 2 ^ 8 % 256, w % 256]

/-- SHA-256 of a byte string, as computed by `hashlib.sha256`. -/
def sha256 (msg : List Nat) : List Nat :=
  let Hf := (chunkBlocks (padMessage msg)).foldl compressBlock sha256Init
  wordBytes Hf.a ++ wordBytes Hf.b ++ wordBytes Hf.c ++ wordBytes Hf.d ++
  wordBytes Hf.e ++ wordBytes Hf.f ++ wordBytes Hf.g ++ wordBytes Hf.h

/-- UTF-8 encoding of one Unicode code point (1 to 4 bytes). -/
def utf8EncodeCharNat (c : Char) : List Nat :=
  let n := c.toNat
  if n < 128 then [n]
  else if n < 2048 then [192 + n / 64, 128 + n % 64]
  else if n < 65536 then [224 + n / 4096, 128 + n / 64 % 64, 128 + n % 64]
  else [240 + n / 262144, 128 + n / 4096 % 64, 128 + n / 64 % 64, 128 + n % 64]

/-- UTF-8 encoding of a string, as `str.encode` with the `utf-8` codec. -/
def utf8Encode (s : String) : List Nat :=
  s.data.flatMap utf8EncodeCharNat

/-- HMAC-SHA-256 (RFC 2104 / FIPS 198, as implemented by `hmac.new`
with `digestmod=hashlib.sha256`): keys longer than the 64-byte block
are first hashed, the key is zero-padded to 64 bytes, and the digest is
`H((K XOR opad) || H((K XOR ipad) || msg))`. -/
def hmacSha256 (key msg : List Nat) : List Nat :=
  let k0 := if 64 < key.length then sha256 key else key
  let kp := k0 ++ List.replicate (64 - k0.length) 0
  let ipadKey := kp.map (fun b => Nat.xor b 54)
  let opadKey := kp.map (fun b => Nat.xor b 92)
  sha256 (opadKey ++ sha256 (ipadKey ++ msg))

/-- Lowercase hexadecimal rendering of a byte string, as the
`.hexdigest()` method of a hash object. -/
def hexDigest (bytes : List Nat) : String :=
  String.mk (bytes.flatMap (fun b => [hexChar (b / 16 % 16), hexChar (b % 16)]))

/-- Model of `generate_hmac(secretKey, rawJson)`: the lowercase
hexadecimal HMAC-SHA-256 of the UTF-8 bytes of `rawJson`, keyed by the
UTF-8 bytes of `secretKey` (`hmac.new(key=secretKey.encode('utf-8'),
msg=rawJson.encode('utf-8'), digestmod=hashlib.sha256).hexdigest()`). -/
def generate_hmac (secretKey rawJson : String) : String :=
  hexDigest (hmacSha256 (utf8Encode secretKey) (utf8Encode rawJson))

/-- The `ApiVersion` enumeration of the client. -/
inductive ApiVersion where
  | v2_10_0 : ApiVersion

/-- String tag of an `ApiVersion` enumerant (its `.value`). -/
def ApiVersion.value : ApiVersion → String
  | .v2_10_0 => "v2_10_0"

/-- The `ActionType` enumeration: the closed catalog of report actions. -/
inductive ActionType where
  | PEOPLE_PROFILE | DRIVER_PROFILE | TAXI_PROFILE | TAXI_DRIVER_MAPPING
  | VEHICLE_MODEL_PROFILE | DRIVER_TRIP_TRANSACTION | DRIVER_TRIP_SUMMARY
  | DRIVER_RECENT_TRIP_SUMMARY | DRIVER_BLOCK_REASON | DRIVER_CANCEL_REASON
  | DRIVER_CREDIT_DEBIT

/-- String tag of an `ActionType` enumerant (its `.value`). -/
def ActionType.value : ActionType → String
  | .PEOPLE_PROFILE => "PEOPLE_PROFILE"
  | .DRIVER_PROFILE => "DRIVER_PROFILE"
  | .TAXI_PROFILE => "TAXI_PROFILE"
  | .TAXI_DRIVER_MAPPING => "TAXI_DRIVER_MAPPING"
  | .VEHICLE_MODEL_PROFILE => "VEHICLE_MODEL_PROFILE"
  | .DRIVER_TRIP_TRANSACTION => "DRIVER_TRIP_TRANSACTION"
  | .DRIVER_TRIP_SUMMARY => "DRIVER_TRIP_SUMMARY"
  | .DRIVER_RECENT_TRIP_SUMMARY => "DRIVER_RECENT_TRIP_SUMMARY"
  | .DRIVER_BLOCK_REASON => "DRIVER_BLOCK_REASON"
  | .DRIVER_CANCEL_REASON => "DRIVER_CANCEL_REASON"
  | .DRIVER_CREDIT_DEBIT => "DRIVER_CREDIT_DEBIT"

/-- The `DateType` enumeration. -/
inductive DateType where
  | CREATE_TIME | CREATE_DATE

/-- String tag of a `DateType` enumerant (its `.value`). -/
def DateType.value : DateType → String
  | .CREATE_TIME => "CREATE_TIME"
  | .CREATE_DATE => "CREATE_DATE"

/-- The `TransactionType` enumeration. -/
inductive TransactionType where
  | CREDIT | DEBIT

/-- String tag of a `TransactionType` enumerant (its `.value`). -/
def TransactionType.value : TransactionType → String
  | .CREDIT => "CREDIT"
  | .DEBIT => "DEBIT"

/-- Per-environment client configuration (`ClientConfig.__init__`). -/
structure ClientConfig where
  serviceEndpoint : String
  hmacSecret : String
  authToken : Option String
  csrfToken : Option String

/-- One ordering key (`Sorter.__init__`): field name and `DESC` flag. -/
structure Sorter where
  field : String
  DESC : Bool

/-- The `__dict__` image of a `Sorter` (attribute insertion order). -/
def Sorter.toPyVal (s : Sorter) : PyVal :=
  .obj [("field", .str s.field), ("DESC", .bool s.DESC)]

/-- Embedding of `Option Int` as a Python attribute value. -/
def optInt : Option Int → PyVal
  | none => .null
  | some n => .int n

/-- Embedding of `Option String` as a Python attribute value. -/
def optStr : Option String → PyVal
  | none => .null
  | some s => .str s

/-- The fields assigned by `BaseReportRequest.__init__`. -/
structure BaseReportRequest where
  fromStaff : Bool
  fromPortal : Bool
  pagingEnabled : Bool
  pageSize : Int
  pageIndex : Int
  exportEnabled : Bool
  sorters : List Sorter

/-- `BaseReportRequest()`: the documented defaults. -/
def BaseReportRequest.init : BaseReportRequest :=
  ⟨false, false, true, 10, 0, false, []⟩

/-- The `__dict__` entries laid down by `BaseReportRequest.__init__`,
in attribute insertion order. -/
def baseFields (b : BaseReportRequest) : List (String × PyVal) :=
  [("fromStaff", .bool b.fromStaff), ("fromPortal", .bool b.fromPortal),
   ("pagingEnabled", .bool b.pagingEnabled), ("pageSize", .int b.pageSize),
   ("pageIndex", .int b.pageIndex), ("exportEnabled", .bool b.exportEnabled),
   ("sorters", .list (b.sorters.map Sorter.toPyVal))]

/-- `PeopleProfileReportRequest`: base fields plus people filters. -/
structure PeopleProfileReportRequest where
  base : BaseReportRequest
  peopleId : Option Int
  withDriverTripSummary : Bool
  withoutEmptyDriverTripSummary : Bool

/-- `PeopleProfileReportRequest()` constructor. -/
def PeopleProfileReportRequest.init : PeopleProfileReportRequest :=
  ⟨BaseReportRequest.init, none, false, false⟩

/-- `__dict__` image of a `PeopleProfileReportRequest`. -/
def PeopleProfileReportRequest.toPyVal (r : PeopleProfileReportRequest) : PyVal :=
  .obj (baseFields r.base ++
    [("peopleId", optInt r.peopleId),
     ("withDriverTripSummary", .bool r.withDriverTripSummary),
     ("withoutEmptyDriverTripSummary", .bool r.withoutEmptyDriverTripSummary)])

/-- `TaxiProfileReportRequest`: base fields plus a taxi filter. -/
structure TaxiProfileReportRequest where
  base : BaseReportRequest
  taxiId : Option Int

/-- `TaxiProfileReportRequest()` constructor. -/
def TaxiProfileReportRequest.init : TaxiProfileReportRequest :=
  ⟨BaseReportRequest.init, none⟩

/-- `__dict__` image of a `TaxiProfileReportRequest`. -/
def TaxiProfileReportRequest.toPyVal (r : TaxiProfileReportRequest) : PyVal :=
  .obj (baseFields r.base ++ [("taxiId", optInt r.taxiId)])

/-- `VehicleModelProfileReportRequest`: base fields plus a model filter. -/
structure VehicleModelProfileReportRequest where
  base : BaseReportRequest
  modelId : Option Int

/-- `VehicleModelProfileReportRequest()` constructor. -/
def VehicleModelProfileReportRequest.init : VehicleModelProfileReportRequest :=
  ⟨BaseReportRequest.init, none⟩

/-- `__dict__` image of a `VehicleModelProfileReportRequest`. -/
def VehicleModelProfileReportRequest.toPyVal (r : VehicleModelProfileReportRequest) : PyVal :=
  .obj (baseFields r.base ++ [("modelId", optInt r.modelId)])

/-- `DriverProfileReportRequest`: base fields plus driver filters. -/
structure DriverProfileReportRequest where
  base : BaseReportRequest
  driverId : Option Int
  withDriverTripSummary : Bool
  withoutEmptyDriverTripSummary : Bool

/-- `DriverProfileReportRequest()` constructor. -/
def DriverProfileReportRequest.init : DriverProfileReportRequest :=
  ⟨BaseReportRequest.init, none, false, false⟩

/-- `__dict__` image of a `DriverProfileReportRequest`. -/
def DriverProfileReportRequest.toPyVal (r : DriverProfileReportRequest) : PyVal :=
  .obj (baseFields r.base ++
    [("driverId", optInt r.driverId),
     ("withDriverTripSummary", .bool r.withDriverTripSummary),
     ("withoutEmptyDriverTripSummary", .bool r.withoutEmptyDriverTripSummary)])

/-- `DriverTripTransactionReportRequest`: base fields plus transaction
filters.  `dateType` is a plain string attribute, assigned
`DateType.CREATE_TIME.value` by the constructor. -/
structure DriverTripTransactionReportRequest where
  base : BaseReportRequest
  transactionId : Option Int
  driverId : Option Int
  tripId : Option Int
  transactionTypes : List String
  transactionCategories : List String
  minAmountInRupee : Option Int
  maxAmountInRupee : Option Int
  minAmountInCents : Option Int
  maxAmountInCents : Option Int
  description : Option String
  dateType : String
  fromDate : Option String
  toDate : Option String
  createdBy : Option String
  withDriverProfile : Bool

/-- `DriverTripTransactionReportRequest()` constructor. -/
def DriverTripTransactionReportRequest.init : DriverTripTransactionReportRequest :=
  ⟨BaseReportRequest.init, none, none, none, [], [], none, none, none, none,
   none, DateType.CREATE_TIME.value, none, none, none, false⟩

/-- `__dict__` image of a `DriverTripTransactionReportRequest`. -/
def DriverTripTransactionReportRequest.toPyVal (r : DriverTripTransactionReportRequest) : PyVal :=
  .obj (baseFields r.base ++
    [("transactionId", optInt r.transactionId),
     ("driverId", optInt r.driverId),
     ("tripId", optInt r.tripId),
     ("transactionTypes", .list (r.transactionTypes.map PyVal.str)),
     ("transactionCategories", .list (r.transactionCategories.map PyVal.str)),
     ("minAmountInRupee", optInt r.minAmountInRupee),
     ("maxAmountInRupee", optInt r.maxAmountInRupee),
     ("minAmountInCents", optInt r.minAmountInCents),
     ("maxAmountInCents", optInt r.maxAmountInCents),
     ("description", optStr r.description),
     ("dateType", .str r.dateType),
     ("fromDate", optStr r.fromDate),
     ("toDate", optStr r.toDate),
     ("createdBy", optStr r.createdBy),
     ("withDriverProfile", .bool r.withDriverProfile)])

/-- `DriverTripSummaryReportRequest` is a pure specialization of
`DriverTripTransactionReportRequest`: the subclass adds no fields. -/
def DriverTripSummaryReportRequest := DriverTripTransactionReportRequest

/-- `DriverTripSummaryReportRequest()` constructor: it only runs the
parent constructor. -/
def DriverTripSummaryReportRequest.init : DriverTripSummaryReportRequest :=
  DriverTripTransactionReportRequest.init

/-- `__dict__` image of a `DriverTripSummaryReportRequest`. -/
def DriverTripSummaryReportRequest.toPyVal (r : DriverTripSummaryReportRequest) : PyVal :=
  DriverTripTransactionReportRequest.toPyVal r

/-- `DriverBlockReasonSummaryReportRequest`: base plus a driver filter. -/
structure DriverBlockReasonSummaryReportRequest where
  base : BaseReportRequest
  driverId : Option Int

/-- `DriverBlockReasonSummaryReportRequest()` constructor. -/
def DriverBlockReasonSummaryReportRequest.init : DriverBlockReasonSummaryReportRequest :=
  ⟨BaseReportRequest.init, none⟩

/-- `__dict__` image of a `DriverBlockReasonSummaryReportRequest`. -/
def DriverBlockReasonSummaryReportRequest.toPyVal
    (r : DriverBlockReasonSummaryReportRequest) : PyVal :=
  .obj (baseFields r.base ++ [("driverId", optInt r.driverId)])

/-- `DriverCancelReasonProfileReportRequest`: base plus a reason filter. -/
structure DriverCancelReasonProfileReportRequest where
  base : BaseReportRequest
  reasonId : Option Int

/-- `DriverCancelReasonProfileReportRequest()` constructor. -/
def DriverCancelReasonProfileReportRequest.init : DriverCancelReasonProfileReportRequest :=
  ⟨BaseReportRequest.init, none⟩

/-- `__dict__` image of a `DriverCancelReasonProfileReportRequest`. -/
def DriverCancelReasonProfileReportRequest.toPyVal
    (r : DriverCancelReasonProfileReportRequest) : PyVal :=
  .obj (baseFields r.base ++ [("reasonId", optInt r.reasonId)])

/-- `DriverCreditDebitReportRequest` extends the trip-transaction
request with one flag. -/
structure DriverCreditDebitReportRequest where
  parent : DriverTripTransactionReportRequest
  withTaxiDriverMapping : Bool

/-- `DriverCreditDebitReportRequest()` constructor.  The source assigns
`self.withTaxiDriverMapping = false`, and `false` is not a defined name
in Python (the boolean constant is `False`), so after the parent
constructor finishes the assignment raises a `NameError`; the
constructor never returns a value. -/
def DriverCreditDebitReportRequest.init : Except String DriverCreditDebitReportRequest :=
  .error "NameError: name false is not defined"

/-- `__dict__` image of a `DriverCreditDebitReportRequest`. -/
def DriverCreditDebitReportRequest.toPyVal (r : DriverCreditDebitReportRequest) : PyVal :=
  match DriverTripTransactionReportRequest.toPyVal r.parent with
  | .obj fs => .obj (fs ++ [("withTaxiDriverMapping", .bool r.withTaxiDriverMapping)])
  | v => v

/-- The closed catalog of report-request variants. -/
inductive ReportRequest where
  | peopleProfile (r : PeopleProfileReportRequest)
  | taxiProfile (r : TaxiProfileReportRequest)
  | vehicleModelProfile (r : VehicleModelProfileReportRequest)
  | driverProfile (r : DriverProfileReportRequest)
  | driverTripTransaction (r : DriverTripTransactionReportRequest)
  | driverTripSummary (r : DriverTripSummaryReportRequest)
  | driverBlockReason (r : DriverBlockReasonSummaryReportRequest)
  | driverCancelReason (r : DriverCancelReasonProfileReportRequest)
  | driverCreditDebit (r : DriverCreditDebitReportRequest)

/-- `__dict__` image of any report-request variant. -/
def ReportRequest.toPyVal : ReportRequest → PyVal
  | .peopleProfile r => r.toPyVal
  | .taxiProfile r => r.toPyVal
  | .vehicleModelProfile r => r.toPyVal
  | .driverProfile r => r.toPyVal
  | .driverTripTransaction r => r.toPyVal
  | .driverTripSummary r => DriverTripSummaryReportRequest.toPyVal r
  | .driverBlockReason r => r.toPyVal
  | .driverCancelReason r => r.toPyVal
  | .driverCreditDebit r => r.toPyVal

/-- The protocol envelope (`GatewayRequest.__init__` stores the version
tag, message id, request date, `validateOnly=False`, the action tag
string and the payload object). -/
structure GatewayRequest where
  apiVersion : String
  messageId : String
  requestDate : String
  validateOnly : Bool
  actionType : String
  requestData : PyVal

/-- `GatewayRequest(actionType, requestData)`.  The fresh
`str(uuid.uuid4())` and `datetime.datetime.now().isoformat()` values
produced at construction time are passed in as explicit `messageId`
and `requestDate` arguments. -/
def GatewayRequest.init (actionType : ActionType) (requestData : PyVal)
    (messageId requestDate : String) : GatewayRequest :=
  ⟨ApiVersion.v2_10_0.value, messageId, requestDate, false, actionType.value, requestData⟩

/-- `__dict__` image of a `GatewayRequest` (attribute insertion order). -/
def GatewayRequest.toPyVal (gr : GatewayRequest) : PyVal :=
  .obj [("apiVersion", .str gr.apiVersion), ("messageId", .str gr.messageId),
        ("requestDate", .str gr.requestDate), ("validateOnly", .bool gr.validateOnly),
        ("actionType", .str gr.actionType), ("requestData", gr.requestData)]

/-- `Serializer.to_json` invoked on a `GatewayRequest`. -/
def GatewayRequest.to_json (gr : GatewayRequest) : String :=
  render gr.toPyVal 0

/-- Whitespace characters accepted between JSON tokens. -/
def isWsChar (c : Char) : Bool :=
  c = ' ' || c.toNat = 9 || c.toNat = 10 || c.toNat = 13

/-- Drop leading JSON whitespace. -/
def skipWs : List Char → List Char
  | [] => []
  | c :: cs => if isWsChar c then skipWs cs else c :: cs

/-- Value of one hexadecimal digit character. -/
def hexVal (c : Char) : Option Nat :=
  if '0' ≤ c ∧ c ≤ '9' then some (c.toNat - 48)
  else if 'a' ≤ c ∧ c ≤ 'f' then some (c.toNat - 87)
  else if 'A' ≤ c ∧ c ≤ 'F' then some (c.toNat - 55)
  else none

/-- Decoding of a single-character JSON string escape. -/
def escDecode (e : Char) : Option Char :=
  if e = '"' then some '"'
  else if e = '\\' then some '\\'
  else if e = '/' then some '/'
  else if e = 'b' then some (Char.ofNat 8)
  else if e = 'f' then some (Char.ofNat 12)
  else if e = 'n' then some (Char.ofNat 10)
  else if e = 'r' then some (Char.ofNat 13)
  else if e = 't' then some (Char.ofNat 9)
  else none

/-- Parse the body of a JSON string after the opening quote, returning
the decoded characters and the remaining input.  Like the strict-mode
`json.loads`, raw control characters below `0x20` are rejected.
(Astral characters written as two `\\u` surrogate escapes are outside
the model; gateway payload strings do not use them.) -/
def parseStringBody : List Char → Except String (List Char × List Char)
  | [] => .error "Unterminated string"
  | c :: cs =>
      if c = '"' then .ok ([], cs)
      else if c = '\\' then
        match cs with
        | 'u' :: h1 :: h2 :: h3 :: h4 :: cs' =>
            match hexVal h1, hexVal h2, hexVal h3, hexVal h4 with
            | some a, some b, some x, some d =>
                match parseStringBody cs' with
                | .ok (body, rest) =>
                    .ok (Char.ofNat (((a * 16 + b) * 16 + x) * 16 + d) :: body, rest)
                | .error m => .error m
            | _, _, _, _ => .error "Invalid unicode escape"
        | e :: cs' =>
            match escDecode e with
            | some d =>
                match parseStringBody cs' with
                | .ok (body, rest) => .ok (d :: body, rest)
                | .error m => .error m
            | none => .error "Invalid escape"
        | [] => .error "Unterminated string"
      else if c.toNat < 32 then .error "Invalid control character"
      else
        match parseStringBody cs with
        | .ok (body, rest) => .ok (c :: body, rest)
        | .error m => .error m

/-- Parse a JSON integer token, following the `json` number grammar for
the integer part: an optional minus sign and either a single `0` or a
nonzero digit followed by digits.  Fractions and exponents (floats) are
outside the model. -/
def parseNumberToken (cs : List Char) : Except String (Int × List Char) :=
  let (neg, cs1) : Bool × List Char :=
    match cs with
    | '-' :: rest => (true, rest)
    | _ => (false, cs)
  match cs1 with
  | '0' :: rest => .ok (0, rest)
  | _ =>
      let (digits, rest) := cs1.span (fun c => c.isDigit)
      if digits.isEmpty then .error "Expecting value"
      else
        let n : Int := Int.ofNat (digits.foldl (fun acc c => acc * 10 + (c.toNat - 48)) 0)
        .ok (if neg then -n else n, rest)

/-- Insert a key/value pair into a Python dict under construction:
an existing key keeps its position and gets the new value (as in
`json.loads`, where a duplicate key in the text makes the later value
win), a new key is appended. -/
def dictInsert (fields : List (String × PyVal)) (k : String) (v : PyVal) :
    List (String × PyVal) :=
  match fields with
  | [] => [(k, v)]
  | f :: fs => if f.1 = k then (k, v) :: fs else f :: dictInsert fs k v

mutual

/-- Fuel-indexed recursive-descent parser for one JSON value (restricted
to the null/bool/int/string/array/object fragment used by the gateway;
finite float literals are outside the model).  With `pyConsts = true`
this is the grammar accepted by `json.loads`, which by default also
recognizes the non-standard constants `NaN`, `Infinity` and
`-Infinity`; with `pyConsts = false` it is the plain RFC 8259 grammar
of that fragment. -/
def parseVal : Bool → Nat → List Char → Except String (PyVal × List Char)
  | _, 0, _ => .error "Nesting limit exceeded"
  | pyConsts, fuel + 1, cs =>
      let s := skipWs cs
      if s.take 4 = ['n', 'u', 'l', 'l'] then .ok (.null, s.drop 4)
      else if s.take 4 = ['t', 'r', 'u', 'e'] then .ok (.bool true, s.drop 4)
      else if s.take 5 = ['f', 'a', 'l', 's', 'e'] then .ok (.bool false, s.drop 5)
      else if pyConsts ∧ s.take 3 = ['N', 'a', 'N'] then .ok (.fconst .nan, s.drop 3)
      else if pyConsts ∧ s.take 8 = ['I', 'n', 'f', 'i', 'n', 'i', 't', 'y'] then
        .ok (.fconst .inf, s.drop 8)
      else if pyConsts ∧ s.take 9 = ['-', 'I', 'n', 'f', 'i', 'n', 'i', 't', 'y'] then
        .ok (.fconst .neginf, s.drop 9)
      else
        match s with
        | [] => .error "Expecting value"
        | c :: rest =>
            if c = '"' then
              match parseStringBody rest with
              | .ok (body, rest') => .ok (.str (String.mk body), rest')
              | .error m => .error m
            else if c = '[' then parseArrayRest pyConsts fuel rest []
            else if c = Char.ofNat 123 then parseObjectRest pyConsts fuel rest []
            else
              match parseNumberToken s with
              | .ok (n, rest') => .ok (.int n, rest')
              | .error m => .error m

/-- Parse the remainder of a JSON array after `[` (or after a comma),
`acc` holding the elements already read. -/
def parseArrayRest : Bool → Nat → List Char → List PyVal →
    Except String (PyVal × List Char)
  | _, 0, _, _ => .error "Nesting limit exceeded"
  | pyConsts, fuel + 1, cs, acc =>
      match skipWs cs with
      | ']' :: rest =>
          if acc.isEmpty then .ok (.list [], rest) else .error "Expecting value"
      | s =>
          match parseVal pyConsts fuel s with
          | .error m => .error m
          | .ok (v, rest) =>
              match skipWs rest with
              | ',' :: rest' => parseArrayRest pyConsts fuel rest' (acc ++ [v])
              | ']' :: rest' => .ok (.list (acc ++ [v]), rest')
              | _ => .error "Expecting comma delimiter"

/-- Parse the remainder of a JSON object after the opening brace (or
after a comma), `acc` holding the members already read. -/
def parseObjectRest : Bool → Nat → List Char → List (String × PyVal) →
    Except String (PyVal × List Char)
  | _, 0, _, _ => .error "Nesting limit exceeded"
  | pyConsts, fuel + 1, cs, acc =>
      match skipWs cs with
      | [] => .error "Expecting property name"
      | c :: rest =>
          if c = Char.ofNat 125 then
            if acc.isEmpty then .ok (.obj [], rest) else .error "Expecting property name"
          else if c = '"' then
            match parseStringBody rest with
            | .error m => .error m
            | .ok (keyChars, rest1) =>
                match skipWs rest1 with
                | ':' :: rest2 =>
                    match parseVal pyConsts fuel rest2 with
                    | .error m => .error m
                    | .ok (v, rest3) =>
                        let acc' := dictInsert acc (String.mk keyChars) v
                        match skipWs rest3 with
                        | ',' :: rest4 => parseObjectRest pyConsts fuel rest4 acc'
                        | d :: rest4 =>
                            if d = Char.ofNat 125 then .ok (.obj acc', rest4)
                            else .error "Expecting comma delimiter"
                        | [] => .error "Expecting comma delimiter"
                | _ => .error "Expecting colon delimiter"
          else .error "Expecting property name"

end

/-- Parse a complete text: one value, with only whitespace allowed
after it; the flag selects between the plain RFC 8259 grammar and the
extended grammar of `json.loads`. -/
def parseJsonWith (pyConsts : Bool) (s : String) : Except String PyVal :=
  match parseVal pyConsts (2 * s.length + 4) s.data with
  | .error m => .error m
  | .ok (v, rest) => if (skipWs rest).isEmpty then .ok v else .error "Extra data"

/-- The model of plain `json.loads` without an object hook: objects
come back as dicts (`PyVal.obj`), and the non-standard constants
`NaN`, `Infinity` and `-Infinity` are accepted, as `json.loads` does
by default. -/
def parseJsonValue (s : String) : Except String PyVal :=
  parseJsonWith true s

/-- Modelled from the spec's words "valid JSON": strict RFC 8259
acceptance of a text, i.e. the same grammar WITHOUT Python's extra
constants (restricted, like the whole model, to the integer-number
fragment).  It serves to state that a text such as `NaN` is not valid
JSON even though `json.loads` accepts it. -/
def isStrictJson (s : String) : Bool :=
  match parseJsonWith false s with
  | .ok _ => true
  | .error _ => false

/-- The Python keywords, which `collections.namedtuple` rejects as
field names. -/
def pythonKeywords : List String :=
  ["False", "None", "True", "and", "as", "assert", "async", "await",
   "break", "class", "continue", "def", "del", "elif", "else", "except",
   "finally", "for", "from", "global", "if", "import", "in", "is",
   "lambda", "nonlocal", "not", "or", "pass", "raise", "return", "try",
   "while", "with", "yield"]

/-- ASCII letter test. -/
def isAsciiAlphaChar (c : Char) : Bool :=
  ('a' ≤ c && c ≤ 'z') || ('A' ≤ c && c ≤ 'Z')

/-- Character allowed after the first position of an identifier. -/
def isIdentChar (c : Char) : Bool :=
  isAsciiAlphaChar c || c.isDigit || c = '_'

/-- Acceptable `namedtuple` field name: a valid identifier that is not
a keyword and does not start with an underscore (both rejected by
`collections.namedtuple`).  The model covers the ASCII identifier
fragment; non-ASCII identifier characters, legal in Python but absent
from gateway responses, are not modelled. -/
def isValidFieldName (s : String) : Bool :=
  match s.data with
  | [] => false
  | c :: cs => isAsciiAlphaChar c && cs.all isIdentChar && !(pythonKeywords.contains s)

mutual

/-- The `json_object_hook` transformation applied bottom-up to a parsed
JSON value, as `json.loads(rawJson, object_hook=json_object_hook)`
does: every dict becomes `namedtuple('Class', keys)(*values)`.
Creating the namedtuple type raises a `ValueError` when a key is not a
valid identifier, is a keyword, or starts with an underscore. -/
def hookTree : PyVal → Except String PyVal
  | .obj fs =>
      if (fs.map Prod.fst).all isValidFieldName && distinctKeysB (fs.map Prod.fst) then
        match hookTreeFields fs with
        | .ok fs' => .ok (.tuple fs')
        | .error m => .error m
      else .error "ValueError: invalid namedtuple field names"
  | .tuple fs =>
      match hookTreeFields fs with
      | .ok fs' => .ok (.tuple fs')
      | .error m => .error m
  | .list xs =>
      match hookTreeList xs with
      | .ok xs' => .ok (.list xs')
      | .error m => .error m
  | v => .ok v
termination_by structural a => a

/-- `hookTree` on every element of a list. -/
def hookTreeList : List PyVal → Except String (List PyVal)
  | [] => .ok []
  | x :: xs =>
      match hookTree x, hookTreeList xs with
      | .ok x', .ok xs' => .ok (x' :: xs')
      | .error m, _ => .error m
      | _, .error m => .error m
termination_by structural a => a

/-- `hookTree` on every field value of a field list. -/
def hookTreeFields : List (String × PyVal) → Except String (List (String × PyVal))
  | [] => .ok []
  | (k, v) :: fs =>
      match hookTree v, hookTreeFields fs with
      | .ok v', .ok fs' => .ok ((k, v') :: fs')
      | .error m, _ => .error m
      | _, .error m => .error m
termination_by structural a => a

end

mutual

/-- Total counterpart of `hookTree`: turn every object node into a
tuple node, ignoring field-name validity. -/
def hookF : PyVal → PyVal
  | .obj fs => .tuple (hookFFields fs)
  | .tuple fs => .tuple (hookFFields fs)
  | .list xs => .list (hookFList xs)
  | v => v
termination_by structural a => a

/-- `hookF` on every element of a list. -/
def hookFList : List PyVal → List PyVal
  | [] => []
  | x :: xs => hookF x :: hookFList xs
termination_by structural a => a

/-- `hookF` on every field value of a field list. -/
def hookFFields : List (String × PyVal) → List (String × PyVal)
  | [] => []
  | (k, v) :: fs => (k, hookF v) :: hookFFields fs
termination_by structural a => a

end

mutual

/-- Every object or tuple node of the value carries pairwise-distinct,
`namedtuple`-acceptable field names. -/
def allKeysValid : PyVal → Bool
  | .obj fs =>
      (fs.map Prod.fst).all isValidFieldName && distinctKeysB (fs.map Prod.fst) &&
      allKeysValidFields fs
  | .tuple fs =>
      (fs.map Prod.fst).all isValidFieldName && distinctKeysB (fs.map Prod.fst) &&
      allKeysValidFields fs
  | .list xs => allKeysValidList xs
  | _ => true
termination_by structural a => a

/-- `allKeysValid` on every element of a list. -/
def allKeysValidList : List PyVal → Bool
  | [] => true
  | x :: xs => allKeysValid x && allKeysValidList xs
termination_by structural a => a

/-- `allKeysValid` on every field value of a field list. -/
def allKeysValidFields : List (String × PyVal) → Bool
  | [] => true
  | (_, v) :: fs => allKeysValid v && allKeysValidFields fs
termination_by structural a => a

end

mutual

/-- Replace every object and tuple node by the plain list of its field
values, in original field order, dropping the field names.  This is the
information that survives serializing a `namedtuple` tree. -/
def stripNames : PyVal → PyVal
  | .obj fs => .list (stripNamesFields fs)
  | .tuple fs => .list (stripNamesFields fs)
  | .list xs => .list (stripNamesList xs)
  | v => v
termination_by structural a => a

/-- `stripNames` on every element of a list. -/
def stripNamesList : List PyVal → List PyVal
  | [] => []
  | x :: xs => stripNames x :: stripNamesList xs
termination_by structural a => a

/-- `stripNames` on every field value of a field list. -/
def stripNamesFields : List (String × PyVal) → List PyVal
  | [] => []
  | (_, v) :: fs => stripNames v :: stripNamesFields fs
termination_by structural a => a

end

/-- Model of `json_to_object(rawJson)`, i.e. `json.loads(rawJson,
object_hook=json_object_hook)`: parse the text and turn every dict into
a namedtuple.  (Python applies the hook to each dict as soon as it is
parsed; applying it after the parse yields the same value and the same
success/failure behaviour, up to the text of the error message.) -/
def json_to_object (rawJson : String) : Except String PyVal :=
  match parseJsonValue rawJson with
  | .ok v => hookTree v
  | .error m => .error m

/-- Attribute access on a materialized response value: a namedtuple
yields the value of the named field; any other value has no such
attribute (Python would raise an `AttributeError`). -/
def attrGet (v : PyVal) (name : String) : Option PyVal :=
  match v with
  | .tuple fs => fs.lookup name
  | _ => none

/-- The observable content of one `post_http_request` invocation: the
URL, the body and the headers it passes to `requests.post`. -/
structure TransportCall where
  url : String
  body : String
  contentType : String
  hmacHeader : String

/-- Model of `post_http_request(httpUrl, httpBody, hmac)` up to the
network effect: it forwards exactly its arguments, with the fixed
`Content-Type: application/json` header and the signature under the
`HMAC` header. -/
def post_http_request (httpUrl httpBody hmacSig : String) : TransportCall :=
  ⟨httpUrl, httpBody, "application/json", hmacSig⟩

/-- Model of `process_gateway_request(clientConfig, gatewayRequest)`.
The external HTTP round trip is the function argument `transport`,
which maps the outgoing call to the raw response text.  The returned
pair is the transport call actually issued and the materialized
response. -/
def process_gateway_request (clientConfig : ClientConfig) (gatewayRequest : GatewayRequest)
    (transport : TransportCall → String) : TransportCall × Except String PyVal :=
  let rawRequest := gatewayRequest.to_json
  let hmacSig := generate_hmac clientConfig.hmacSecret rawRequest
  let call := post_http_request clientConfig.serviceEndpoint rawRequest hmacSig
  let rawResponse := transport call
  (call, json_to_object rawResponse)

/-- State-threaded form of `process_gateway_request`: the function
reads `clientConfig` and `gatewayRequest` but assigns to neither, so
the embedding returns their final states alongside the result. -/
def process_gateway_request_st (clientConfig : ClientConfig) (gatewayRequest : GatewayRequest)
    (transport : TransportCall → String) :
    ClientConfig × GatewayRequest × TransportCall × Except String PyVal :=
  let rawRequest := gatewayRequest.to_json
  let hmacSig := generate_hmac clientConfig.hmacSecret rawRequest
  let call := post_http_request clientConfig.serviceEndpoint rawRequest hmacSig
  let rawResponse := transport call
  (clientConfig, gatewayRequest, call, json_to_object rawResponse)

/-- Shared body of the `fetch_*` wrappers: build the envelope for the
given action tag, run `process_gateway_request`, and extract the
`responseData` attribute of the materialized response.  The wrappers
read but never assign the caller's `clientConfig` and `reportRequest`,
so the embedding threads both through to the output. -/
def fetchReport (actionType : ActionType) (clientConfig : ClientConfig)
    (reportRequest : ReportRequest) (messageId requestDate : String)
    (transport : TransportCall → String) :
    ClientConfig × ReportRequest × TransportCall × Except String (Option PyVal) :=
  let gatewayRequest := GatewayRequest.init actionType reportRequest.toPyVal messageId requestDate
  let st := process_gateway_request_st clientConfig gatewayRequest transport
  (st.1, reportRequest, st.2.2.1, st.2.2.2.map (fun t => attrGet t "responseData"))

/-- `fetch_people_profile(clientConfig, reportRequest)`. -/
def fetch_people_profile (clientConfig : ClientConfig) (reportRequest : ReportRequest)
    (messageId requestDate : String) (transport : TransportCall → String) :
    ClientConfig × ReportRequest × TransportCall × Except String (Option PyVal) :=
  fetchReport .PEOPLE_PROFILE clientConfig reportRequest messageId requestDate transport

/-- `fetch_driver_profile(clientConfig, reportRequest)`. -/
def fetch_driver_profile (clientConfig : ClientConfig) (reportRequest : ReportRequest)
    (messageId requestDate : String) (transport : TransportCall → String) :
    ClientConfig × ReportRequest × TransportCall × Except String (Option PyVal) :=
  fetchReport .DRIVER_PROFILE clientConfig reportRequest messageId requestDate transport

/-- `fetch_taxi_profile(clientConfig, reportRequest)`. -/
def fetch_taxi_profile (clientConfig : ClientConfig) (reportRequest : ReportRequest)
    (messageId requestDate : String) (transport : TransportCall → String) :
    ClientConfig × ReportRequest × TransportCall × Except String (Option PyVal) :=
  fetchReport .TAXI_PROFILE clientConfig reportRequest messageId requestDate transport

/-- `fetch_taxi_driver_mapping(clientConfig, reportRequest)`. -/
def fetch_taxi_driver_mapping (clientConfig : ClientConfig) (reportRequest : ReportRequest)
    (messageId requestDate : String) (transport : TransportCall → String) :
    ClientConfig × ReportRequest × TransportCall × Except String (Option PyVal) :=
  fetchReport .TAXI_DRIVER_MAPPING clientConfig reportRequest messageId requestDate transport

/-- `fetch_vehicle_model_profile(clientConfig, reportRequest)`. -/
def fetch_vehicle_model_profile (clientConfig : ClientConfig) (reportRequest : ReportRequest)
    (messageId requestDate : String) (transport : TransportCall → String) :
    ClientConfig × ReportRequest × TransportCall × Except String (Option PyVal) :=
  fetchReport .VEHICLE_MODEL_PROFILE clientConfig reportRequest messageId requestDate transport

/-- `fetch_driver_trip_transaction(clientConfig, reportRequest)`. -/
def fetch_driver_trip_transaction (clientConfig : ClientConfig) (reportRequest : ReportRequest)
    (messageId requestDate : String) (transport : TransportCall → String) :
    ClientConfig × ReportRequest × TransportCall × Except String (Option PyVal) :=
  fetchReport .DRIVER_TRIP_TRANSACTION clientConfig reportRequest messageId requestDate transport

/-- `fetch_driver_trip_summary(clientConfig, reportRequest)`. -/
def fetch_driver_trip_summary (clientConfig : ClientConfig) (reportRequest : ReportRequest)
    (messageId requestDate : String) (transport : TransportCall → String) :
    ClientConfig × ReportRequest × TransportCall × Except String (Option PyVal) :=
  fetchReport .DRIVER_TRIP_SUMMARY clientConfig reportRequest messageId requestDate transport

/-- `fetch_driver_recent_trip_summary(clientConfig, reportRequest)`. -/
def fetch_driver_recent_trip_summary (clientConfig : ClientConfig) (reportRequest : ReportRequest)
    (messageId requestDate : String) (transport : TransportCall → String) :
    ClientConfig × ReportRequest × TransportCall × Except String (Option PyVal) :=
  fetchReport .DRIVER_RECENT_TRIP_SUMMARY clientConfig reportRequest messageId requestDate transport

/-- `fetch_driver_block_reason(clientConfig, reportRequest)`. -/
def fetch_driver_block_reason (clientConfig : ClientConfig) (reportRequest : ReportRequest)
    (messageId requestDate : String) (transport : TransportCall → String) :
    ClientConfig × ReportRequest × TransportCall × Except String (Option PyVal) :=
  fetchReport .DRIVER_BLOCK_REASON clientConfig reportRequest messageId requestDate transport

/-- `fetch_driver_cancel_reason(clientConfig, reportRequest)`. -/
def fetch_driver_cancel_reason (clientConfig : ClientConfig) (reportRequest : ReportRequest)
    (messageId requestDate : String) (transport : TransportCall → String) :
    ClientConfig × ReportRequest × TransportCall × Except String (Option PyVal) :=
  fetchReport .DRIVER_CANCEL_REASON clientConfig reportRequest messageId requestDate transport

/-- `fetch_driver_credit_debit(clientConfig, reportRequest)`. -/
def fetch_driver_credit_debit (clientConfig : ClientConfig) (reportRequest : ReportRequest)
    (messageId requestDate : String) (transport : TransportCall → String) :
    ClientConfig × ReportRequest × TransportCall × Except String (Option PyVal) :=
  fetchReport .DRIVER_CREDIT_DEBIT clientConfig reportRequest messageId requestDate transport

/-- Every report-request variant serializes through its `__dict__`, so
its `PyVal` image is an object node. -/
theorem reportRequest_toPyVal_isObj (r : ReportRequest) :
    ∃ fs, r.toPyVal = PyVal.obj fs := by
  cases r with
  | peopleProfile r => exact ⟨_, rfl⟩
  | taxiProfile r => exact ⟨_, rfl⟩
  | vehicleModelProfile r => exact ⟨_, rfl⟩
  | driverProfile r => exact ⟨_, rfl⟩
  | driverTripTransaction r => exact ⟨_, rfl⟩
  | driverTripSummary r => exact ⟨_, rfl⟩
  | driverBlockReason r => exact ⟨_, rfl⟩
  | driverCancelReason r => exact ⟨_, rfl⟩
  | driverCreditDebit r => exact ⟨_, rfl⟩

/-- C2: in `process_gateway_request`, the string passed as the HTTP
body to the transport is exactly the serialization `gatewayRequest.to_json`,
and the HMAC header handed to the transport is `generate_hmac` of the
client secret applied to that very same string: the signed bytes and
the transmitted bytes coincide, with the signature a function of the
already-serialized body (computed after serialization, before the
transport is invoked). -/
theorem signed_body_is_transmitted_body (clientConfig : ClientConfig)
    (gatewayRequest : GatewayRequest) (transport : TransportCall → String) :
    (process_gateway_request clientConfig gatewayRequest transport).1.body =
      gatewayRequest.to_json ∧
    (process_gateway_request clientConfig gatewayRequest transport).1.hmacHeader =
      generate_hmac clientConfig.hmacSecret
        (process_gateway_request clientConfig gatewayRequest transport).1.body ∧
    (process_gateway_request clientConfig gatewayRequest transport).1.url =
      clientConfig.serviceEndpoint :=
  ⟨rfl, rfl, rfl⟩

/-- C6: for every action tag and report request, the constructed
envelope carries `apiVersion = "v2_10_0"` (the protocol version tag),
`validateOnly = false`, the action stored as the enumeration's string
tag, and the given report request as `requestData`, whose serialized
form is a nested JSON object. -/
theorem gatewayRequest_init_fields (actionType : ActionType) (r : ReportRequest)
    (messageId requestDate : String) :
    (GatewayRequest.init actionType r.toPyVal messageId requestDate).apiVersion =
      ApiVersion.v2_10_0.value ∧
    ApiVersion.v2_10_0.value = "v2_10_0" ∧
    (GatewayRequest.init actionType r.toPyVal messageId requestDate).validateOnly = false ∧
    (GatewayRequest.init actionType r.toPyVal messageId requestDate).actionType =
      actionType.value ∧
    (GatewayRequest.init actionType r.toPyVal messageId requestDate).requestData =
      r.toPyVal ∧
    ∃ fs, r.toPyVal = PyVal.obj fs :=
  ⟨rfl, rfl, rfl, rfl, rfl, reportRequest_toPyVal_isObj r⟩

/-- C10: the pipeline reads but never mutates its inputs: after
`process_gateway_request` and after every `fetch_*` wrapper, the
client config and the report request (all their fields, the sorters
sequence included) are the values they had before the call. -/
theorem pipeline_preserves_inputs (clientConfig : ClientConfig)
    (gatewayRequest : GatewayRequest) (reportRequest : ReportRequest)
    (messageId requestDate : String) (transport : TransportCall → String) :
    (process_gateway_request_st clientConfig gatewayRequest transport).1 = clientConfig ∧
    (process_gateway_request_st clientConfig gatewayRequest transport).2.1 = gatewayRequest ∧
    (fetch_people_profile clientConfig reportRequest messageId requestDate transport).1 =
      clientConfig ∧
    (fetch_people_profile clientConfig reportRequest messageId requestDate transport).2.1 =
      reportRequest ∧
    (fetch_driver_profile clientConfig reportRequest messageId requestDate transport).1 =
      clientConfig ∧
    (fetch_driver_profile clientConfig reportRequest messageId requestDate transport).2.1 =
      reportRequest ∧
    (fetch_taxi_profile clientConfig reportRequest messageId requestDate transport).1 =
      clientConfig ∧
    (fetch_taxi_profile clientConfig reportRequest messageId requestDate transport).2.1 =
      reportRequest ∧
    (fetch_taxi_driver_mapping clientConfig reportRequest messageId requestDate transport).1 =
      clientConfig ∧
    (fetch_taxi_driver_mapping clientConfig reportRequest messageId requestDate transport).2.1 =
      reportRequest ∧
    (fetch_vehicle_model_profile clientConfig reportRequest messageId requestDate transport).1 =
      clientConfig ∧
    (fetch_vehicle_model_profile clientConfig reportRequest messageId requestDate transport).2.1 =
      reportRequest ∧
    (fetch_driver_trip_transaction clientConfig reportRequest messageId requestDate transport).1 =
      clientConfig ∧
    (fetch_driver_trip_transaction clientConfig reportRequest messageId requestDate
      transport).2.1 = reportRequest ∧
    (fetch_driver_trip_summary clientConfig reportRequest messageId requestDate transport).1 =
      clientConfig ∧
    (fetch_driver_trip_summary clientConfig reportRequest messageId requestDate transport).2.1 =
      reportRequest ∧
    (fetch_driver_recent_trip_summary clientConfig reportRequest messageId requestDate
      transport).1 = clientConfig ∧
    (fetch_driver_recent_trip_summary clientConfig reportRequest messageId requestDate
      transport).2.1 = reportRequest ∧
    (fetch_driver_block_reason clientConfig reportRequest messageId requestDate transport).1 =
      clientConfig ∧
    (fetch_driver_block_reason clientConfig reportRequest messageId requestDate transport).2.1 =
      reportRequest ∧
    (fetch_driver_cancel_reason clientConfig reportRequest messageId requestDate transport).1 =
      clientConfig ∧
    (fetch_driver_cancel_reason clientConfig reportRequest messageId requestDate transport).2.1 =
      reportRequest ∧
    (fetch_driver_credit_debit clientConfig reportRequest messageId requestDate transport).1 =
      clientConfig ∧
    (fetch_driver_credit_debit clientConfig reportRequest messageId requestDate transport).2.1 =
      reportRequest :=
  ⟨rfl, rfl, rfl, rfl, rfl, rfl, rfl, rfl, rfl, rfl, rfl, rfl, rfl, rfl, rfl, rfl,
   rfl, rfl, rfl, rfl, rfl, rfl, rfl, rfl⟩

/-- C4: the zero-argument constructors of the report catalog.  The
eight working variants return values carrying exactly the documented
defaults (`pagingEnabled=true, pageSize=10, pageIndex=0`, all filters
unset or empty); the driver credit-debit constructor, however, raises a
`NameError` because line 179 of the source references the undefined
name `false` instead of `False`, so it never returns a value.  The
claim is right about the intended behaviour and the code defects on the
ninth variant. -/
theorem report_constructors_defaults :
    PeopleProfileReportRequest.init =
      ⟨⟨false, false, true, 10, 0, false, []⟩, none, false, false⟩ ∧
    DriverProfileReportRequest.init =
      ⟨⟨false, false, true, 10, 0, false, []⟩, none, false, false⟩ ∧
    TaxiProfileReportRequest.init = ⟨⟨false, false, true, 10, 0, false, []⟩, none⟩ ∧
    VehicleModelProfileReportRequest.init = ⟨⟨false, false, true, 10, 0, false, []⟩, none⟩ ∧
    DriverTripTransactionReportRequest.init =
      ⟨⟨false, false, true, 10, 0, false, []⟩, none, none, none, [], [], none, none,
       none, none, none, "CREATE_TIME", none, none, none, false⟩ ∧
    DriverTripSummaryReportRequest.init = DriverTripTransactionReportRequest.init ∧
    DriverBlockReasonSummaryReportRequest.init =
      ⟨⟨false, false, true, 10, 0, false, []⟩, none⟩ ∧
    DriverCancelReasonProfileReportRequest.init =
      ⟨⟨false, false, true, 10, 0, false, []⟩, none⟩ ∧
    DriverCreditDebitReportRequest.init =
      Except.error "NameError: name false is not defined" :=
  ⟨rfl, rfl, rfl, rfl, rfl, rfl, rfl, rfl, rfl⟩

/-- C5 counterexample: in a freshly constructed
`DriverTripTransactionReportRequest` the date-type tag is not unset:
the constructor assigns the string tag `DateType.CREATE_TIME.value`,
so the serialized `dateType` field is the string `"CREATE_TIME"`, not
the null of an unset (`None`) filter. -/
theorem fresh_trip_transaction_dateType_set :
    DriverTripTransactionReportRequest.init.dateType = DateType.CREATE_TIME.value ∧
    DateType.CREATE_TIME.value = "CREATE_TIME" ∧
    (match DriverTripTransactionReportRequest.init.toPyVal with
     | .obj fs => fs.lookup "dateType"
     | _ => none) = some (PyVal.str "CREATE_TIME") ∧
    some (PyVal.str "CREATE_TIME") ≠ some PyVal.null :=
  ⟨rfl, rfl, rfl, fun h => PyVal.noConfusion (Option.some.inj h)⟩

/-- C5 (amended): a freshly constructed
`DriverTripTransactionReportRequest` has `pagingEnabled=true`,
`pageSize=10`, `pageIndex=0`, empty `sorters`, every optional scalar
filter (`transactionId`, `driverId`, `tripId`, the four amount bounds,
`description`, `fromDate`, `toDate`, `createdBy`) unset, the
`transactionTypes` and `transactionCategories` collections empty,
`withDriverProfile=false` — and the date-type tag set to its default
`"CREATE_TIME"` rather than unset. -/
theorem fresh_trip_transaction_defaults :
    DriverTripTransactionReportRequest.init =
      ⟨⟨false, false, true, 10, 0, false, []⟩, none, none, none, [], [], none, none,
       none, none, none, "CREATE_TIME", none, none, none, false⟩ :=
  rfl

/-- C9 counterexample: the texts `NaN`, `Infinity` and `-Infinity` are
not valid JSON (the RFC 8259 grammar rejects them), yet `json.loads`
accepts them by default — the source never overrides `parse_constant`
— so `json_to_object` returns the corresponding float value instead of
failing with a decode error. -/
theorem json_to_object_accepts_nan :
    isStrictJson "NaN" = false ∧ isStrictJson "Infinity" = false ∧
    isStrictJson "-Infinity" = false ∧
    json_to_object "NaN" = Except.ok (PyVal.fconst PyFloatConst.nan) ∧
    json_to_object "Infinity" = Except.ok (PyVal.fconst PyFloatConst.inf) ∧
    json_to_object "-Infinity" = Except.ok (PyVal.fconst PyFloatConst.neginf) :=
  ⟨rfl, rfl, rfl, rfl, rfl, rfl⟩

/-- C9 (amended): for every input text that `json.loads` rejects — its
grammar being JSON extended with the non-standard constants `NaN`,
`Infinity` and `-Infinity`, which it accepts and decodes to float
values — `json_to_object` fails with exactly the decode error and
never returns a partial, null or empty value; in particular the
malformed body `"\x7bnot json"` is rejected, and a gateway call whose
transport returns that body yields an error result, not a response
value. -/
theorem json_to_object_rejects_invalid :
    (∀ s m, parseJsonValue s = Except.error m → json_to_object s = Except.error m) ∧
    json_to_object "\x7bnot json" = Except.error "Expecting property name" ∧
    ∀ (clientConfig : ClientConfig) (gatewayRequest : GatewayRequest),
      (process_gateway_request clientConfig gatewayRequest
          (fun _ => "\x7bnot json")).2 = Except.error "Expecting property name" :=
  ⟨fun s m h => by simp [json_to_object, h], rfl, fun _ _ => rfl⟩

/-- Witness for C9 at the concrete malformed body from the spec
scenario. -/
theorem json_to_object_rejects_invalid_witness :
    json_to_object "\x7bnot json" = Except.error "Expecting property name" :=
  json_to_object_rejects_invalid.1 "\x7bnot json" "Expecting property name" rfl

/-- `hookFFields` is the fieldwise map of `hookF`. -/
theorem hookFFields_eq_map (fs : List (String × PyVal)) :
    hookFFields fs = fs.map (fun p => (p.1, hookF p.2)) := by
  induction fs with
  | nil => rfl
  | cons f fs ih => cases f; simp [hookFFields, ih]

/-- `hookFList` is the map of `hookF`. -/
theorem hookFList_eq_map (xs : List PyVal) : hookFList xs = xs.map hookF := by
  induction xs with
  | nil => rfl
  | cons x xs ih => simp [hookFList, ih]

/-- Looking a key up after the hook finds the hooked value of the same
key. -/
theorem lookup_map_hookF (fs : List (String × PyVal)) (k : String) :
    (hookFFields fs).lookup k = (fs.lookup k).map hookF := by
  induction fs with
  | nil => rfl
  | cons f fs ih =>
      cases f with
      | mk k' v => simp only [hookFFields, List.lookup]; split <;> simp [ih]

mutual

/-- On a value all of whose keys are acceptable namedtuple field names,
the materialization hook succeeds and produces exactly the total
object-to-tuple transformation. -/
theorem hookTree_ok (v : PyVal) (h : allKeysValid v = true) :
    hookTree v = Except.ok (hookF v) := by
  cases v with
  | obj fs =>
      simp only [allKeysValid, Bool.and_eq_true] at h
      simp [hookTree, hookF, h.1.1, h.1.2, hookTreeFields_ok fs h.2]
  | tuple fs =>
      simp only [allKeysValid, Bool.and_eq_true] at h
      simp [hookTree, hookF, hookTreeFields_ok fs h.2]
  | list xs =>
      simp only [allKeysValid] at h
      simp [hookTree, hookF, hookTreeList_ok xs h]
  | null => rfl
  | bool b => rfl
  | int n => rfl
  | str s => rfl
  | fconst c => rfl
termination_by sizeOf v

/-- `hookTree_ok` for the elements of a list. -/
theorem hookTreeList_ok (xs : List PyVal) (h : allKeysValidList xs = true) :
    hookTreeList xs = Except.ok (hookFList xs) := by
  match xs with
  | [] => rfl
  | x :: xs' =>
      simp only [allKeysValidList, Bool.and_eq_true] at h
      simp [hookTreeList, hookFList, hookTree_ok x h.1, hookTreeList_ok xs' h.2]
termination_by sizeOf xs

/-- `hookTree_ok` for the values of a field list. -/
theorem hookTreeFields_ok (fs : List (String × PyVal)) (h : allKeysValidFields fs = true) :
    hookTreeFields fs = Except.ok (hookFFields fs) := by
  match fs with
  | [] => rfl
  | (k, v) :: fs' =>
      simp only [allKeysValidFields, Bool.and_eq_true] at h
      simp [hookTreeFields, hookFFields, hookTree_ok v h.1, hookTreeFields_ok fs' h.2]
termination_by sizeOf fs

end

/-- C8 counterexample: `\x7b"from": 1\x7d` is valid JSON (the plain
parse succeeds), yet `json_to_object` does not return a readable tree:
`namedtuple` rejects the Python keyword `from` as a field name and the
materialization fails with a `ValueError`.  The claim's universal
quantification over all valid response texts is therefore too strong. -/
theorem json_to_object_fails_on_keyword_key :
    parseJsonValue "\x7b\"from\": 1\x7d" = Except.ok (PyVal.obj [("from", PyVal.int 1)]) ∧
    json_to_object "\x7b\"from\": 1\x7d" =
      Except.error "ValueError: invalid namedtuple field names" :=
  ⟨rfl, rfl⟩

/-- C8 (amended): for every valid JSON text all of whose object keys
are acceptable namedtuple field names (valid non-keyword identifiers,
as all gateway response keys are), `json_to_object` succeeds and
returns the object-to-tuple image of the parsed value; on that tree
every object field is accessible by name along whatever path was
populated, and arrays are preserved as ordered sequences.  In
particular the response `\x7b"responseData": \x7b"transactions":
[]\x7d\x7d` materializes to a tree whose `responseData.transactions`
is an empty ordered sequence, not an error and not null. -/
theorem json_to_object_accessible :
    (∀ s v, parseJsonValue s = Except.ok v → allKeysValid v = true →
        json_to_object s = Except.ok (hookF v) ∧
        (∀ fs k, v = PyVal.obj fs → attrGet (hookF v) k = (fs.lookup k).map hookF) ∧
        (∀ xs, v = PyVal.list xs → hookF v = PyVal.list (xs.map hookF))) ∧
    json_to_object "\x7b\"responseData\": \x7b\"transactions\": []\x7d\x7d" =
      Except.ok (PyVal.tuple [("responseData", PyVal.tuple [("transactions", PyVal.list [])])]) ∧
    ((json_to_object "\x7b\"responseData\": \x7b\"transactions\": []\x7d\x7d").toOption.bind
        (fun t => attrGet t "responseData")).bind (fun d => attrGet d "transactions") =
      some (PyVal.list []) := by
  refine ⟨?_, rfl, rfl⟩
  intro s v hp hv
  refine ⟨by simp [json_to_object, hp, hookTree_ok v hv], ?_, ?_⟩
  · intro fs k hfs
    subst hfs
    simp [hookF, attrGet, lookup_map_hookF]
  · intro xs hxs
    subst hxs
    simp [hookF, hookFList_eq_map]

/-- Witness for C8 at the spec's scenario text. -/
theorem json_to_object_accessible_witness :
    json_to_object "\x7b\"responseData\": \x7b\"transactions\": []\x7d\x7d" =
      Except.ok (hookF (PyVal.obj [("responseData", PyVal.obj [("transactions", PyVal.list [])])])) ∧
    attrGet (hookF (PyVal.obj [("responseData", PyVal.obj [("transactions", PyVal.list [])])]))
        "responseData" =
      ((([("responseData", PyVal.obj [("transactions", PyVal.list [])])] :
          List (String × PyVal)).lookup "responseData").map hookF) := by
  have h := json_to_object_accessible.1
    "\x7b\"responseData\": \x7b\"transactions\": []\x7d\x7d"
    (PyVal.obj [("responseData", PyVal.obj [("transactions", PyVal.list [])])]) rfl rfl
  exact ⟨h.1, h.2.1 _ "responseData" rfl⟩

/-- A tuple node renders exactly like a list node whose elements render
to the tuple's rendered field values: `json.dumps` encodes a namedtuple
as the array of its values. -/
theorem renderTuple_eq_renderListVals (fs : List (String × PyVal)) (ys : List PyVal)
    (lvl : Nat) (h : (renderFields fs (lvl + 1)).map Prod.snd = renderList ys (lvl + 1)) :
    render (.tuple fs) lvl = render (.list ys) lvl := by
  simp only [render]
  rw [← h]
  cases hr : renderFields fs (lvl + 1) with
  | nil => simp
  | cons a t => simp only [List.map_cons, List.map_map]; rfl

mutual

/-- Serializing the materialized (namedtuple) image of a value gives
the same string as serializing the value with every object replaced by
the plain array of its field values: materialization preserves field
values and array order in the serialized output but drops field names. -/
theorem render_hookF (v : PyVal) (lvl : Nat) :
    render (hookF v) lvl = render (stripNames v) lvl := by
  cases v with
  | null => rfl
  | bool b => rfl
  | int n => rfl
  | str s => rfl
  | fconst c => rfl
  | list xs =>
      simp only [hookF, stripNames, render]
      rw [renderList_hookF xs (lvl + 1)]
  | obj fs =>
      simp only [hookF, stripNames]
      exact renderTuple_eq_renderListVals _ _ lvl (renderFields_hookF fs (lvl + 1))
  | tuple fs =>
      simp only [hookF, stripNames]
      exact renderTuple_eq_renderListVals _ _ lvl (renderFields_hookF fs (lvl + 1))
termination_by sizeOf v

/-- `render_hookF` for the elements of a list. -/
theorem renderList_hookF (xs : List PyVal) (lvl : Nat) :
    renderList (hookFList xs) lvl = renderList (stripNamesList xs) lvl := by
  match xs with
  | [] => rfl
  | x :: xs' =>
      simp [hookFList, stripNamesList, renderList, render_hookF x lvl,
            renderList_hookF xs' lvl]
termination_by sizeOf xs

/-- `render_hookF` for the values of a field list. -/
theorem renderFields_hookF (fs : List (String × PyVal)) (lvl : Nat) :
    (renderFields (hookFFields fs) lvl).map Prod.snd = renderList (stripNamesFields fs) lvl := by
  match fs with
  | [] => rfl
  | (k, v) :: fs' =>
      simp [hookFFields, stripNamesFields, renderFields, renderList,
            render_hookF v lvl, renderFields_hookF fs' lvl]
termination_by sizeOf fs

end

/-- C7 counterexample: materialize the valid response
`\x7b"responseData": \x7b"a": 1\x7d\x7d` and re-serialize its
`responseData` subtree with the canonical serializer.  The subtree is a
namedtuple, which `json.dumps` encodes as a JSON array, so the output
is `[\n    1\n]`: the field value survives but the field name `a` does
not — re-parsing the output yields an array, not the original object.
The round trip therefore does not preserve field names. -/
theorem roundtrip_loses_field_names :
    json_to_object "\x7b\"responseData\": \x7b\"a\": 1\x7d\x7d" =
      Except.ok (PyVal.tuple [("responseData", PyVal.tuple [("a", PyVal.int 1)])]) ∧
    attrGet (PyVal.tuple [("responseData", PyVal.tuple [("a", PyVal.int 1)])]) "responseData" =
      some (PyVal.tuple [("a", PyVal.int 1)]) ∧
    to_json (PyVal.tuple [("a", PyVal.int 1)]) = "[\n    1\n]" ∧
    parseJsonValue "[\n    1\n]" = Except.ok (PyVal.list [PyVal.int 1]) ∧
    PyVal.list [PyVal.int 1] ≠ PyVal.obj [("a", PyVal.int 1)] :=
  ⟨rfl, rfl, rfl, rfl, fun h => PyVal.noConfusion h⟩

/-- C7 (amended): for every valid response JSON text with acceptable
namedtuple keys, materializing it and re-serializing the resulting
`responseData` subtree with the canonical serializer yields the
canonical serialization of that subtree with every object node replaced
by the plain array of its field values in original field order: field
values and array element order are preserved, field names (and
object-ness) are dropped. -/
theorem roundtrip_preserves_values_and_order (s : String) (v : PyVal)
    (fs : List (String × PyVal)) (sub : PyVal)
    (hp : parseJsonValue s = Except.ok v) (hv : allKeysValid v = true)
    (hobj : v = PyVal.obj fs) (hsub : fs.lookup "responseData" = some sub) :
    json_to_object s = Except.ok (hookF v) ∧
    attrGet (hookF v) "responseData" = some (hookF sub) ∧
    ∀ lvl, render (hookF sub) lvl = render (stripNames sub) lvl := by
  refine ⟨by simp [json_to_object, hp, hookTree_ok v hv], ?_,
    fun lvl => render_hookF sub lvl⟩
  subst hobj
  simp [hookF, attrGet, lookup_map_hookF, hsub]

/-- Witness for C7 at a concrete response text. -/
theorem roundtrip_preserves_values_and_order_witness :
    json_to_object "\x7b\"responseData\": \x7b\"a\": 1\x7d\x7d" =
      Except.ok (hookF (PyVal.obj
        [("responseData", PyVal.obj [("a", PyVal.int 1)])])) ∧
    attrGet (hookF (PyVal.obj [("responseData", PyVal.obj [("a", PyVal.int 1)])]))
        "responseData" = some (hookF (PyVal.obj [("a", PyVal.int 1)])) ∧
    ∀ lvl, render (hookF (PyVal.obj [("a", PyVal.int 1)])) lvl =
      render (stripNames (PyVal.obj [("a", PyVal.int 1)])) lvl :=
  roundtrip_preserves_values_and_order
    "\x7b\"responseData\": \x7b\"a\": 1\x7d\x7d"
    (PyVal.obj [("responseData", PyVal.obj [("a", PyVal.int 1)])])
    [("responseData", PyVal.obj [("a", PyVal.int 1)])]
    (PyVal.obj [("a", PyVal.int 1)]) rfl rfl rfl rfl

/-- A SHA-256 digest is always 32 bytes. -/
theorem sha256_length (msg : List Nat) : (sha256 msg).length = 32 := by
  simp [sha256, wordBytes]

/-- The byte-to-hex-pair expansion doubles the length. -/
theorem hexPairs_length (bytes : List Nat) :
    (bytes.flatMap (fun b => [hexChar (b / 16 % 16), hexChar (b % 16)])).length =
      2 * bytes.length := by
  induction bytes with
  | nil => rfl
  | cons b bs ih => simp [ih]; omega

/-- An HMAC-SHA-256 tag is always 32 bytes. -/
theorem hmacSha256_length (key msg : List Nat) : (hmacSha256 key msg).length = 32 :=
  sha256_length _

/-- `hexdigest` produces two characters per byte. -/
theorem hexDigest_length (bytes : List Nat) :
    (hexDigest bytes).length = 2 * bytes.length := by
  simp only [hexDigest, String.length_mk]
  exact hexPairs_length bytes

/-- Every output of `hexChar` is a lowercase hexadecimal digit. -/
theorem hexChar_hex (n : Nat) :
    ('0' ≤ hexChar n ∧ hexChar n ≤ '9') ∨ ('a' ≤ hexChar n ∧ hexChar n ≤ 'f') := by
  match n with
  | 0 | 1 | 2 | 3 | 4 | 5 | 6 | 7 | 8 | 9 => exact Or.inl (by decide)
  | 10 | 11 | 12 | 13 | 14 => exact Or.inr (by decide)
  | n + 15 =>
      have h : hexChar (n + 15) = 'f' := rfl
      rw [h]
      exact Or.inr (by decide)

set_option maxRecDepth 10000 in
/-- C3: `generate_hmac(secret, body)` is the HMAC-SHA-256 of the UTF-8
bytes of `body`, keyed by the UTF-8 bytes of `secret`, encoded as a
lowercase hexadecimal string, and it is a pure function of its two
arguments.  Concretely: it equals the hex digest of `hmacSha256` (the
RFC 2104 construction over the FIPS 180-4 compression, validated below
against the published test vector), its output is always 64 characters,
each a lowercase hexadecimal digit, and identical inputs give the
identical signature. -/
theorem generate_hmac_spec (secretKey rawJson : String) :
    generate_hmac secretKey rawJson =
      hexDigest (hmacSha256 (utf8Encode secretKey) (utf8Encode rawJson)) ∧
    generate_hmac secretKey rawJson = generate_hmac secretKey rawJson ∧
    (generate_hmac secretKey rawJson).length = 64 ∧
    (∀ c ∈ (generate_hmac secretKey rawJson).data,
      ('0' ≤ c ∧ c ≤ '9') ∨ ('a' ≤ c ∧ c ≤ 'f')) ∧
    generate_hmac "key" "The quick brown fox jumps over the lazy dog" =
      "f7bc83f430538424b13298e6aa6fb143ef4d59a14946175997479dbc2d1a3cd8" := by
  refine ⟨rfl, rfl, ?_, ?_, rfl⟩
  · rw [show generate_hmac secretKey rawJson =
        hexDigest (hmacSha256 (utf8Encode secretKey) (utf8Encode rawJson)) from rfl,
      hexDigest_length, hmacSha256_length]
  · intro c hc
    rw [show (generate_hmac secretKey rawJson).data =
        (hmacSha256 (utf8Encode secretKey) (utf8Encode rawJson)).flatMap
          (fun b => [hexChar (b / 16 % 16), hexChar (b % 16)]) from rfl,
      List.mem_flatMap] at hc
    obtain ⟨b, _, hcb⟩ := hc
    simp only [List.mem_cons, List.not_mem_nil, or_false] at hcb
    rcases hcb with rfl | rfl <;> exact hexChar_hex _

/-- `findRemove` decomposes a field list up to permutation. -/
theorem findRemove_perm (k : String) (gs : List (String × PyVal)) (w : PyVal)
    (gs' : List (String × PyVal)) (h : findRemove k gs = some (w, gs')) :
    gs.Perm ((k, w) :: gs') := by
  induction gs generalizing gs' with
  | nil => cases h
  | cons g gs ih =>
      by_cases hk : g.1 = k
      · simp only [findRemove, if_pos hk] at h
        have h' := Option.some.inj h
        rw [Prod.mk.injEq] at h'
        obtain ⟨hw, hgs⟩ := h'
        subst hw
        subst hgs
        rw [← hk, Prod.mk.eta]
      · simp only [findRemove, if_neg hk] at h
        cases hfr : findRemove k gs with
        | none => rw [hfr] at h; cases h
        | some p =>
            obtain ⟨w', gs''⟩ := p
            rw [hfr] at h
            have h' := Option.some.inj h
            rw [Prod.mk.injEq] at h'
            obtain ⟨hw, hgs⟩ := h'
            subst hw
            subst hgs
            exact ((ih gs'' hfr).cons g).trans (List.Perm.swap _ _ _)

/-- A successful `fieldEquivFields fs gs` exhibits a rearrangement of
`gs` matching `fs` field by field. -/
theorem fieldEquivFields_exists_perm (fs gs : List (String × PyVal))
    (h : fieldEquivFields fs gs = true) :
    ∃ gs₂, gs.Perm gs₂ ∧
      List.Forall₂ (fun p q => p.1 = q.1 ∧ fieldEquiv p.2 q.2 = true) fs gs₂ := by
  induction fs generalizing gs with
  | nil =>
      simp only [fieldEquivFields, List.isEmpty_iff] at h
      subst h
      exact ⟨[], .refl _, .nil⟩
  | cons f fs ih =>
      obtain ⟨k, v⟩ := f
      simp only [fieldEquivFields] at h
      cases hfr : findRemove k gs with
      | none => rw [hfr] at h; cases h
      | some p =>
          obtain ⟨w, gs'⟩ := p
          rw [hfr] at h
          rw [Bool.and_eq_true] at h
          obtain ⟨gs₂, hperm, hf⟩ := ih gs' h.2
          exact ⟨(k, w) :: gs₂, (findRemove_perm k gs w gs' hfr).trans (hperm.cons _),
            .cons ⟨rfl, h.1⟩ hf⟩

/-- Matched field lists have equal key sequences. -/
theorem forall₂_keys_eq {fs gs : List (String × PyVal)}
    (h : List.Forall₂ (fun p q => p.1 = q.1 ∧ fieldEquiv p.2 q.2 = true) fs gs) :
    fs.map Prod.fst = gs.map Prod.fst := by
  induction h with
  | nil => rfl
  | cons hpq _ ih => simp [hpq.1, ih]

/-- The `Forall₂` matching is exactly the executable `fieldEquivTuple`. -/
theorem forall₂_to_fieldEquivTuple {fs gs : List (String × PyVal)}
    (h : List.Forall₂ (fun p q => p.1 = q.1 ∧ fieldEquiv p.2 q.2 = true) fs gs) :
    fieldEquivTuple fs gs = true := by
  induction h with
  | nil => rfl
  | cons hpq _ ih =>
      rename_i p q fs' gs' _
      obtain ⟨k, v⟩ := p
      obtain ⟨k', w⟩ := q
      obtain ⟨hk, hv⟩ := hpq
      simp only [fieldEquivTuple, Bool.and_eq_true, beq_iff_eq]
      exact ⟨⟨hk, hv⟩, ih⟩

/-- `distinctKeysB` decides `Nodup`. -/
theorem distinctKeysB_iff (ks : List String) : distinctKeysB ks = true ↔ ks.Nodup := by
  induction ks with
  | nil => simp [distinctKeysB]
  | cons k ks ih => simp [distinctKeysB, ih, List.elem_iff]

/-- `renderFields` is a map over the field list. -/
theorem renderFields_eq_map (l : List (String × PyVal)) (lvl : Nat) :
    renderFields l lvl = l.map (fun p => (p.1, render p.2 lvl)) := by
  induction l with
  | nil => rfl
  | cons f fs ih => simp [renderFields, ih]

/-- Rendering fields keeps the key sequence. -/
theorem renderFields_keys (l : List (String × PyVal)) (lvl : Nat) :
    (renderFields l lvl).map Prod.fst = l.map Prod.fst := by
  rw [renderFields_eq_map]
  induction l with
  | nil => rfl
  | cons f fs ih => simp [ih]

/-- Rendering fields respects permutations of the field list. -/
theorem renderFields_perm {l₁ l₂ : List (String × PyVal)} (h : l₁.Perm l₂) (lvl : Nat) :
    (renderFields l₁ lvl).Perm (renderFields l₂ lvl) := by
  rw [renderFields_eq_map, renderFields_eq_map]
  exact h.map _

instance : IsAntisymm (String × String) (fun p q => p.1 < q.1) :=
  ⟨fun _ _ h1 h2 => ((lt_asymm h1) h2).elim⟩

/-- Sorting by key is insensitive to the prior order of the items when
the keys are pairwise distinct: two permuted item lists merge-sort to
the same list. -/
theorem mergeSort_eq_of_perm (L₁ L₂ : List (String × String)) (hp : L₁.Perm L₂)
    (hn : (L₁.map Prod.fst).Nodup) :
    L₁.mergeSort itemLe = L₂.mergeSort itemLe := by
  have htrans : ∀ a b c : String × String,
      itemLe a b = true → itemLe b c = true → itemLe a c = true := by
    intro a b c h1 h2
    simp only [itemLe, decide_eq_true_eq] at *
    exact le_trans h1 h2
  have htotal : ∀ a b : String × String, (itemLe a b || itemLe b a) = true := by
    intro a b
    simp only [itemLe, Bool.or_eq_true, decide_eq_true_eq]
    exact le_total a.1 b.1
  have hp₁ : (L₁.mergeSort itemLe).Perm L₁ := List.mergeSort_perm L₁ itemLe
  have hp₂ : (L₂.mergeSort itemLe).Perm L₂ := List.mergeSort_perm L₂ itemLe
  have strict : ∀ L : List (String × String), L.Perm L₁ →
      List.Sorted (fun p q : String × String => p.1 < q.1) (L.mergeSort itemLe) := by
    intro L hL
    have hle := List.sorted_mergeSort htrans htotal L
    have hnd : ((L.mergeSort itemLe).map Prod.fst).Nodup :=
      (((List.mergeSort_perm L itemLe).trans hL).map Prod.fst).nodup_iff.mpr hn
    have hne : List.Pairwise (fun a b : String × String => a.1 ≠ b.1) (L.mergeSort itemLe) :=
      List.pairwise_map.mp hnd
    exact (hle.and hne).imp (fun hab =>
      lt_of_le_of_ne (by simpa [itemLe, decide_eq_true_eq] using hab.1) hab.2)
  exact List.eq_of_perm_of_sorted (hp₁.trans (hp.trans hp₂.symm))
    (strict L₁ (.refl _)) (strict L₂ hp.symm)

mutual

/-- Canonical serialization is determined by field sets and field
values alone: values with identical fields, in any construction order
(and with the pairwise-distinct object keys that `__dict__` and parsed
JSON guarantee), render to byte-identical strings, because object items
are sorted by key before emission and every scalar has one fixed
encoding. -/
theorem render_congr (a b : PyVal) (h : fieldEquiv a b = true)
    (hn : nodupKeys a = true) (lvl : Nat) : render a lvl = render b lvl := by
  cases a with
  | null =>
      cases b <;> simp [fieldEquiv] at h
      rfl
  | bool x =>
      cases b <;> simp [fieldEquiv] at h
      rw [h]
  | int x =>
      cases b <;> simp [fieldEquiv] at h
      rw [h]
  | str x =>
      cases b <;> simp [fieldEquiv] at h
      rw [h]
  | fconst x =>
      cases b <;> simp [fieldEquiv] at h
      rw [h]
  | list xs =>
      cases b <;> simp only [fieldEquiv] at h <;> try simp at h
      rename_i ys
      simp only [nodupKeys] at hn
      simp only [render]
      rw [renderList_congr xs ys h hn (lvl + 1)]
  | tuple fs =>
      cases b <;> simp only [fieldEquiv] at h <;> try simp at h
      rename_i gs
      simp only [nodupKeys] at hn
      simp only [render]
      rw [renderFields_tuple_congr fs gs h hn (lvl + 1)]
  | obj fs =>
      cases b <;> simp only [fieldEquiv] at h <;> try simp at h
      rename_i gs
      simp only [nodupKeys, Bool.and_eq_true] at hn
      obtain ⟨gs₂, hperm, hf⟩ := fieldEquivFields_exists_perm fs gs h
      have h1 : renderFields fs (lvl + 1) = renderFields gs₂ (lvl + 1) :=
        renderFields_tuple_congr fs gs₂ (forall₂_to_fieldEquivTuple hf) hn.2 (lvl + 1)
      have hnod₂ : ((renderFields gs₂ (lvl + 1)).map Prod.fst).Nodup := by
        rw [renderFields_keys, ← forall₂_keys_eq hf]
        exact (distinctKeysB_iff _).mp hn.1
      have h2 : (renderFields gs₂ (lvl + 1)).mergeSort itemLe =
          (renderFields gs (lvl + 1)).mergeSort itemLe :=
        mergeSort_eq_of_perm _ _ (renderFields_perm hperm.symm (lvl + 1)) hnod₂
      simp only [render]
      rw [h1, h2]
termination_by sizeOf a

/-- `render_congr` for the elements of equivalent lists. -/
theorem renderList_congr (xs ys : List PyVal) (h : fieldEquivList xs ys = true)
    (hn : nodupKeysList xs = true) (lvl : Nat) : renderList xs lvl = renderList ys lvl := by
  match xs, ys with
  | [], [] => rfl
  | [], y :: ys' => simp [fieldEquivList] at h
  | x :: xs', [] => simp [fieldEquivList] at h
  | x :: xs', y :: ys' =>
      simp only [fieldEquivList, Bool.and_eq_true] at h
      simp only [nodupKeysList, Bool.and_eq_true] at hn
      simp only [renderList]
      rw [render_congr x y h.1 hn.1 lvl, renderList_congr xs' ys' h.2 hn.2 lvl]
termination_by sizeOf xs

/-- `render_congr` for pointwise-matched field lists. -/
theorem renderFields_tuple_congr (fs gs : List (String × PyVal))
    (h : fieldEquivTuple fs gs = true) (hn : nodupKeysFields fs = true) (lvl : Nat) :
    renderFields fs lvl = renderFields gs lvl := by
  match fs, gs with
  | [], [] => rfl
  | [], g :: gs' => simp [fieldEquivTuple] at h
  | f :: fs', [] => simp [fieldEquivTuple] at h
  | (k, v) :: fs', (k', w) :: gs' =>
      simp only [fieldEquivTuple, Bool.and_eq_true, beq_iff_eq] at h
      simp only [nodupKeysFields, Bool.and_eq_true] at hn
      obtain ⟨⟨hk, hv⟩, ht⟩ := h
      subst hk
      simp only [renderFields]
      rw [render_congr v w hv hn.1 lvl, renderFields_tuple_congr fs' gs' ht hn.2 lvl]
termination_by sizeOf fs

end

/-- An optional-int attribute value has no object keys at all. -/
theorem nodupKeys_optInt (x : Option Int) : nodupKeys (optInt x) = true := by
  cases x <;> rfl

/-- An optional-string attribute value has no object keys at all. -/
theorem nodupKeys_optStr (x : Option String) : nodupKeys (optStr x) = true := by
  cases x <;> rfl

/-- A serialized `Sorter` has the two distinct keys `field` and `DESC`. -/
theorem nodupKeys_sorter (s : Sorter) : nodupKeys (Sorter.toPyVal s) = true := rfl

/-- A list of serialized sorters has pairwise-distinct keys everywhere. -/
theorem nodupKeysList_sorters (l : List Sorter) :
    nodupKeysList (l.map Sorter.toPyVal) = true := by
  induction l with
  | nil => rfl
  | cons s l ih => simp [nodupKeysList, nodupKeys_sorter, ih]

/-- A list of strings has no object keys at all. -/
theorem nodupKeysList_strs (l : List String) : nodupKeysList (l.map PyVal.str) = true := by
  induction l with
  | nil => rfl
  | cons s l ih => simp [nodupKeysList, nodupKeys, ih]

/-- Every report-request variant serializes with pairwise-distinct
object keys throughout (Python attribute dictionaries cannot repeat a
key). -/
theorem nodupKeys_reportRequest (r : ReportRequest) : nodupKeys r.toPyVal = true := by
  cases r with
  | peopleProfile r =>
      simp [ReportRequest.toPyVal, PeopleProfileReportRequest.toPyVal, baseFields, nodupKeys,
            nodupKeysFields, distinctKeysB, nodupKeys_optInt, nodupKeysList_sorters]
  | taxiProfile r =>
      simp [ReportRequest.toPyVal, TaxiProfileReportRequest.toPyVal, baseFields, nodupKeys,
            nodupKeysFields, distinctKeysB, nodupKeys_optInt, nodupKeysList_sorters]
  | vehicleModelProfile r =>
      simp [ReportRequest.toPyVal, VehicleModelProfileReportRequest.toPyVal, baseFields,
            nodupKeys, nodupKeysFields, distinctKeysB, nodupKeys_optInt, nodupKeysList_sorters]
  | driverProfile r =>
      simp [ReportRequest.toPyVal, DriverProfileReportRequest.toPyVal, baseFields, nodupKeys,
            nodupKeysFields, distinctKeysB, nodupKeys_optInt, nodupKeysList_sorters]
  | driverTripTransaction r =>
      simp [ReportRequest.toPyVal, DriverTripTransactionReportRequest.toPyVal, baseFields,
            nodupKeys, nodupKeysFields, distinctKeysB, nodupKeys_optInt, nodupKeys_optStr,
            nodupKeysList_sorters, nodupKeysList_strs]
  | driverTripSummary r =>
      simp [ReportRequest.toPyVal, DriverTripSummaryReportRequest.toPyVal,
            DriverTripTransactionReportRequest.toPyVal, baseFields, nodupKeys,
            nodupKeysFields, distinctKeysB, nodupKeys_optInt, nodupKeys_optStr,
            nodupKeysList_sorters, nodupKeysList_strs]
  | driverBlockReason r =>
      simp [ReportRequest.toPyVal, DriverBlockReasonSummaryReportRequest.toPyVal, baseFields,
            nodupKeys, nodupKeysFields, distinctKeysB, nodupKeys_optInt, nodupKeysList_sorters]
  | driverCancelReason r =>
      simp [ReportRequest.toPyVal, DriverCancelReasonProfileReportRequest.toPyVal, baseFields,
            nodupKeys, nodupKeysFields, distinctKeysB, nodupKeys_optInt, nodupKeysList_sorters]
  | driverCreditDebit r =>
      simp [ReportRequest.toPyVal, DriverCreditDebitReportRequest.toPyVal,
            DriverTripTransactionReportRequest.toPyVal, baseFields, nodupKeys,
            nodupKeysFields, distinctKeysB, nodupKeys_optInt, nodupKeys_optStr,
            nodupKeysList_sorters, nodupKeysList_strs]

/-- The envelope serializes with pairwise-distinct object keys
throughout, for every report request it can carry. -/
theorem nodupKeys_gatewayRequest (act : ActionType) (r : ReportRequest)
    (messageId requestDate : String) :
    nodupKeys (GatewayRequest.init act r.toPyVal messageId requestDate).toPyVal = true := by
  simp [GatewayRequest.init, GatewayRequest.toPyVal, nodupKeys, nodupKeysFields,
        distinctKeysB, nodupKeys_reportRequest r]

/-- C1: canonical serialization is deterministic.  Any two Python
values with identical field sets and field values — in whatever order
the fields were constructed — serialize to byte-identical strings,
provided the object keys are pairwise distinct; and every
report-request value and every envelope built from one does have
pairwise-distinct keys, so the guarantee applies to all of them. -/
theorem to_json_deterministic :
    (∀ a b, fieldEquiv a b = true → nodupKeys a = true → to_json a = to_json b) ∧
    (∀ r : ReportRequest, nodupKeys r.toPyVal = true) ∧
    (∀ (act : ActionType) (r : ReportRequest) (messageId requestDate : String),
        nodupKeys (GatewayRequest.init act r.toPyVal messageId requestDate).toPyVal = true) :=
  ⟨fun a b h hn => render_congr a b h hn 0, nodupKeys_reportRequest, nodupKeys_gatewayRequest⟩

/-- Witness for C1: the same two fields laid down in the two possible
construction orders serialize identically. -/
theorem to_json_deterministic_witness :
    to_json (PyVal.obj [("pageSize", PyVal.int 10), ("actionType", PyVal.str "DRIVER_PROFILE")]) =
      to_json (PyVal.obj [("actionType", PyVal.str "DRIVER_PROFILE"),
        ("pageSize", PyVal.int 10)]) :=
  to_json_deterministic.1 _ _ rfl rfl
